import Mathlib

/-
Verification of the source-path resolution workflow of
`src/Scripts/init.py` (module `init`, functions `check_dirs_exist` and
`check_or_create_config`).

The program is shallowly embedded as pure Lean functions over an explicit
world: the filesystem is a pair of lists of directory and file paths, the
JSON configuration document is a first-order tree, interactive input is a
list of lines, and fallible IO (config writes, tree copies and moves,
directory walks) is driven by boolean oracles carried in the world.  The
run of `check_or_create_config` is a function from a world and a config
file name to a terminal result carrying the returned status string, the
returned path and the final mutable state (in-memory document, on-disk
config file state, filesystem, number of attempted config writes, and the
trace of progress-callback invocations).

External collaborators (`os.path`, `shutil`, `json`, the console printer)
are modelled as primitives with their documented semantics; the model is a
POSIX run (`os.path.join` of a relative component appends with a slash).
Console output is outside the model.  Python `pathlib.Path` values are
distinguished from `str` values inside documents (constructor
`JsonV.pathv`), because `json.dump` raises `TypeError` on a `Path`; this
distinction is load-bearing for the final persist of the resolved
validation root (init.py lines 327 and 363).
-/

namespace TSGPS2

/-- Whitespace test used to model Python `str.strip` (ASCII whitespace). -/
def isSpaceChar (c : Char) : Bool :=
  c == ' ' || c == '\t' || c == '\n' || c == '\r'

/-- Python `str.strip()`: remove leading and trailing whitespace. -/
def pyStrip (s : String) : String :=
  String.mk (((s.data.dropWhile isSpaceChar).reverse.dropWhile isSpaceChar).reverse)

/-- Python `os.path.join(a, b)` for a relative component `b` on POSIX:
`join("", b) = b`, otherwise `a ++ "/" ++ b`.  Every join in init.py has a
relative second component ("USRDIR", a required subdirectory name, or the
fixed local-data subpath). -/
def joinPath (a b : String) : String :=
  if a = "" then b else a ++ "/" ++ b

/-- Python `os.path.dirname`: the path up to (excluding) the last slash,
or `""` when there is no slash.  Used for `project_base_dir` (init.py
line 86). -/
def dirName (p : String) : String :=
  String.mk (((p.data.reverse.dropWhile (fun c => !(c == '/'))).drop 1).reverse)

/-- Filesystem model: the set of existing directory paths and the set of
existing file paths, each as a list of absolute path strings. -/
structure FS where
  dirs : List String
  files : List String
deriving DecidableEq, Repr

/-- Python `os.path.isdir` over the modelled filesystem. -/
def FS.isDir (fs : FS) (p : String) : Bool :=
  fs.dirs.contains p

/-- Python `os.path.exists` over the modelled filesystem. -/
def FS.pathExists (fs : FS) (p : String) : Bool :=
  fs.dirs.contains p || fs.files.contains p

/-- Strict prefix test: `p` lies strictly below directory `root`. -/
def underPath (root p : String) : Bool :=
  (root ++ "/").data.isPrefixOf p.data

/-- Files below `root`, in filesystem order: the files enumerated by
`os.walk(root)` (init.py lines 216-217). -/
def FS.filesUnder (fs : FS) (root : String) : List String :=
  fs.files.filter (underPath root)

/-- Pre-copy enumeration `total_files` of init.py lines 214-217: the
number of files found below `root` by `os.walk`. -/
def countFiles (fs : FS) (root : String) : Nat :=
  (fs.filesUnder root).length

/-- Python `os.makedirs(p, exist_ok=True)` (init.py line 223).
Intermediate parent directories are not tracked separately: no later
check in this program inspects a proper ancestor of the created path. -/
def makedirs (fs : FS) (p : String) : FS :=
  { fs with dirs := p :: fs.dirs }

/-- Path rewriting for whole-tree transfers: a path below `src` is mapped
to the corresponding path below `dst`. -/
def rebase (src dst p : String) : String :=
  dst ++ String.mk (p.data.drop src.data.length)

/-- Effect of `shutil.copytree(src, dst, dirs_exist_ok=True)` on the
filesystem (external stdlib collaborator, init.py lines 255-258): `dst`
is created and every directory and file below `src` also exists, rebased,
below `dst`; the source tree is untouched. -/
def copyTreeFS (fs : FS) (src dst : String) : FS :=
  { dirs := fs.dirs ++ dst :: (fs.dirs.filter (underPath src)).map (rebase src dst),
    files := fs.files ++ (fs.files.filter (underPath src)).map (rebase src dst) }

/-- Effect of `shutil.move(src, dst)` with absent `dst` (external stdlib
collaborator, init.py line 289): the tree rooted at `src` is renamed to
`dst`. -/
def moveTreeFS (fs : FS) (src dst : String) : FS :=
  { dirs := (fs.dirs.filter (fun p => !(p == src || underPath src p))) ++
      dst :: (fs.dirs.filter (underPath src)).map (rebase src dst),
    files := (fs.files.filter (fun p => !(underPath src p))) ++
      (fs.files.filter (underPath src)).map (rebase src dst) }

mutual
/-- JSON-like value as held by the in-memory `config_data` dictionary.
`pathv` is a Python `pathlib.Path` value, which can be stored in the
dictionary but is rejected by `json.dump`; all other constructors are the
values `json.load` can produce (JSON numbers are modelled as integers;
no claim depends on numeric values). -/
inductive JsonV where
  | null
  | bool (b : Bool)
  | num (n : Int)
  | str (s : String)
  | pathv (s : String)
  | arr (xs : JsonArr)
  | obj (fields : JsonObj)
deriving Repr
/-- JSON array spine. -/
inductive JsonArr where
  | nil
  | cons (hd : JsonV) (tl : JsonArr)
deriving Repr
/-- JSON object spine: insertion-ordered key/value pairs, as in a Python
dict. -/
inductive JsonObj where
  | nil
  | cons (key : String) (val : JsonV) (tl : JsonObj)
deriving Repr
end

/-- Python `dict.get(key)`: first binding of `key`, if any. -/
def objLookup : JsonObj → String → Option JsonV
  | JsonObj.nil, _ => none
  | JsonObj.cons k v rest, key => if k = key then some v else objLookup rest key

/-- Python `dict[key] = v`: replace the binding in place, else append. -/
def objSet : JsonObj → String → JsonV → JsonObj
  | JsonObj.nil, key, v => JsonObj.cons key v JsonObj.nil
  | JsonObj.cons k w rest, key, v =>
    if k = key then JsonObj.cons key v rest else JsonObj.cons k w (objSet rest key v)

mutual
/-- Test whether `json.dump` accepts the value: it raises `TypeError` as
soon as it reaches a `pathlib.Path` (or any other non-JSON value), and
`pathv` is the only such value this program ever stores. -/
def serializable : JsonV → Bool
  | JsonV.null => true
  | JsonV.bool _ => true
  | JsonV.num _ => true
  | JsonV.str _ => true
  | JsonV.pathv _ => false
  | JsonV.arr xs => serializableArr xs
  | JsonV.obj fields => serializableObj fields
/-- Serializability of every element of a JSON array. -/
def serializableArr : JsonArr → Bool
  | JsonArr.nil => true
  | JsonArr.cons x xs => serializable x && serializableArr xs
/-- Serializability of every value of a JSON object. -/
def serializableObj : JsonObj → Bool
  | JsonObj.nil => true
  | JsonObj.cons _ v rest => serializable v && serializableObj rest
end

/-- Read the chained lookup of init.py line 125: get key "RemakeEngine"
with an empty-dict default, then key "Directories" with an empty-dict
default, then key "TSGPS2SourcePath" with no default.  Outer `none`
models the `AttributeError` raised when an intermediate value is not a
dict (caught at line 157); `some none` is a missing key (Python `None`);
`some (some v)` is the stored value. -/
def getSourcePathValue (config_data : JsonV) : Option (Option JsonV) :=
  match config_data with
  | JsonV.obj f1 =>
    match (objLookup f1 "RemakeEngine").getD (JsonV.obj JsonObj.nil) with
    | JsonV.obj f2 =>
      match (objLookup f2 "Directories").getD (JsonV.obj JsonObj.nil) with
      | JsonV.obj f3 => some (objLookup f3 "TSGPS2SourcePath")
      | _ => none
    | _ => none
  | _ => none

/-- Mutation sequence of init.py lines 174-176, 310-314 and 359-363:
ensure `config_data["RemakeEngine"]` is present (defaulting to an empty
dict), ensure `...["Directories"]` is present, then assign
`...["Directories"][key] = v`.  `none` models the `TypeError` raised when
an intermediate value exists but is not a dict; in every such case the
raise happens before any assignment, so the document is unchanged. -/
def updateDirs (config_data : JsonV) (key : String) (v : JsonV) : Option JsonV :=
  match config_data with
  | JsonV.obj f1 =>
    match (objLookup f1 "RemakeEngine").getD (JsonV.obj JsonObj.nil) with
    | JsonV.obj f2 =>
      match (objLookup f2 "Directories").getD (JsonV.obj JsonObj.nil) with
      | JsonV.obj f3 =>
        some (JsonV.obj (objSet f1 "RemakeEngine" (JsonV.obj (objSet f2 "Directories"
          (JsonV.obj (objSet f3 key v))))))
      | _ => none
    | _ => none
  | _ => none

/-- Constant `USRDIR_DIRS` (init.py lines 16-25). -/
def USRDIR_DIRS : List String :=
  ["ENVS", "FMV", "GRAPHICS", "GUIMENU", "IRX", "MISC", "SOUNDS", "SUBTITLE"]

/-- Constant `USRDIR_DIRS_ORIGINAL` (init.py lines 26-35). -/
def USRDIR_DIRS_ORIGINAL : List String :=
  ["ENVS", "FMV", "GRAPHICS", "GUIMENU", "IRX", "MISC", "SOUNDS", "SUBTITLE"]

/-- Status string constant (init.py line 38). -/
def CREATED : String := "CREATED"

/-- Status string constant (init.py line 39). -/
def EXISTS_VALID : String := "EXISTS_VALID"

/-- Status string constant (init.py line 41). -/
def EXISTS_INVALID_SUBDIRS : String := "EXISTS_INVALID_SUBDIRS"

/-- Status string constant (init.py line 42). -/
def ERROR_CREATE : String := "ERROR_CREATE"

/-- Status string constant (init.py line 43). -/
def ERROR_READ : String := "ERROR_READ"

/-- Status string constant (init.py line 44); defined by the source but
never returned by it. -/
def ERROR_CONFIG_UPDATE : String := "ERROR_CONFIG_UPDATE"

/-- Status string constant (init.py line 46). -/
def USER_PROVIDED_PATH_INVALID : String := "USER_PROVIDED_PATH_INVALID"

/-- Status string constant (init.py line 47). -/
def ERROR_FILE_OPERATION : String := "ERROR_FILE_OPERATION"

/-- Fixed local-data subpath (init.py line 87); the backslashes are
literal characters of the string. -/
def localDataSubpath : String := "Source\\GameFiles\\SimpGamePS2"

/-- Default configuration document `default_data` (init.py lines 89-95). -/
def default_data (project_base_dir : String) : JsonV :=
  JsonV.obj (JsonObj.cons "RemakeEngine"
    (JsonV.obj
      (JsonObj.cons "Config"
        (JsonV.obj (JsonObj.cons "project_path" (JsonV.str project_base_dir) JsonObj.nil))
        (JsonObj.cons "Directories"
          (JsonV.obj (JsonObj.cons "TSGPS2SourcePath" (JsonV.str "") JsonObj.nil))
          (JsonObj.cons "Tools" (JsonV.obj JsonObj.nil) JsonObj.nil))))
    JsonObj.nil)

/-- Helper `check_dirs_exist` (init.py lines 50-66): false when the base
path is not a directory, else true exactly when no required name is
missing as a subdirectory. -/
def check_dirs_exist (fs : FS) (base_path : String) (required_dirs : List String) : Bool :=
  if !fs.isDir base_path then false
  else
    let missing := required_dirs.filter (fun dir_name => !fs.isDir (joinPath base_path dir_name))
    missing.isEmpty

/-- Names of the two required directory sets, in the terms of the spec:
`primary` is `USRDIR_DIRS_ORIGINAL` (tested first), `alternate` is
`USRDIR_DIRS` (tested second). -/
inductive MatchedSet where
  | primary
  | alternate
deriving DecidableEq, Repr

/-- Validation against either required set (init.py lines 142-150 and
345-355): test `USRDIR_DIRS_ORIGINAL` first, test `USRDIR_DIRS` only if
the first did not fully match, and report which list matched (the
selection of `list_name` at line 354). -/
def validateAgainstEitherSet (fs : FS) (root : String) : Bool × Option MatchedSet :=
  let found_original := check_dirs_exist fs root USRDIR_DIRS_ORIGINAL
  let found_usrdir := if found_original then false else check_dirs_exist fs root USRDIR_DIRS
  if found_usrdir || found_original then
    (true, some (if found_usrdir then MatchedSet.alternate else MatchedSet.primary))
  else
    (false, none)

/-- Marker-directed choice of the validation root (init.py lines 130-138
and 327-341): the `USRDIR` subdirectory when it exists directly under
`root`, else `root` itself. -/
def resolveValidationRoot (fs : FS) (root : String) : String :=
  let potential_usrdir_path := joinPath root "USRDIR"
  if fs.isDir potential_usrdir_path then potential_usrdir_path else root

/-- State of the config file on disk.  `corrupted` stands for any on-disk
content other than an intact dump of a known document: a failed
`json.dump` after `open(..., "w")` truncated the file, or an otherwise
unspecified partial write. -/
inductive FileState where
  | absent
  | holds (doc : JsonV)
  | corrupted
deriving Repr

/-- Mutable state threaded through a run: the in-memory `config_data`,
the on-disk config file, the filesystem, the number of `json.dump`
attempts so far (indexing the write-success oracle), and the trace of
`copy_with_progress` invocations as `(copied_files_count, total_files)`
pairs. -/
structure RState where
  doc : JsonV
  file : FileState
  fs : FS
  saveIdx : Nat
  progress : List (Nat × Nat)
deriving Repr

/-- World of one run: the filesystem, the initial config-file state, the
IO oracles (create/read success, per-attempt write success, copy and move
success, per-path `os.walk` failure) and the operator input lines for
the two prompt loops. -/
structure World where
  fs : FS
  initialFile : FileState
  createOk : Bool
  readOk : Bool
  saveOk : Nat → Bool
  copyOk : Bool
  moveOk : Bool
  walkFails : String → Bool
  pathInputs : List String
  choiceInputs : List String

/-- Terminal result of a run: either the returned `(status, path)` pair
of `check_or_create_config` together with the final state, or `blocked`
when the supplied input lines ran out while the program was still waiting
at a prompt (the real program would block forever there). -/
inductive RunResult where
  | done (status : String) (path : Option String) (st : RState)
  | blocked (st : RState)
deriving Repr

/-- Status string of a result; `"BLOCKED"` is a model artifact for runs
that never return. -/
def RunResult.status : RunResult → String
  | RunResult.done s _ _ => s
  | RunResult.blocked _ => "BLOCKED"

/-- Returned path of a result. -/
def RunResult.retPath : RunResult → Option String
  | RunResult.done _ p _ => p
  | RunResult.blocked _ => none

/-- Final state of a result. -/
def RunResult.finalState : RunResult → RState
  | RunResult.done _ _ st => st
  | RunResult.blocked st => st

/-- Final on-disk config file of a result. -/
def RunResult.finalFile : RunResult → FileState
  | RunResult.done _ _ st => st.file
  | RunResult.blocked st => st.file

/-- Source-path value stored in an intact on-disk config file, read the
way init.py line 125 reads it. -/
def storedSourcePath : FileState → Option JsonV
  | FileState.holds d =>
    match getSourcePathValue d with
    | some v => v
    | none => none
  | _ => none

/-- One attempt to update the config file (the shared shape of init.py
lines 173-182, 309-320 and 358-369): mutate the in-memory document, then
`json.dump` it.  Returns the new state and whether the dump succeeded.
When the dict surgery itself raises, nothing changes; when the dump is
attempted, the in-memory document keeps the mutation, the attempt counter
advances, and the file holds the new document on success and is left
corrupted on failure (a non-serializable value or a write error).  In
every caller the failure is caught and only reported, never fatal. -/
def attemptSave (w : World) (st : RState) (key : String) (v : JsonV) : RState × Bool :=
  match updateDirs st.doc key v with
  | none => (st, false)
  | some doc2 =>
    let ok := serializable doc2 && w.saveOk st.saveIdx
    ({ st with
        doc := doc2
        saveIdx := st.saveIdx + 1
        file := if ok then FileState.holds doc2 else FileState.corrupted }, ok)

/-- Trace of `copy_with_progress` invocations (init.py lines 238-249)
when `shutil.copytree` calls it once per source file: starting from
`copied_files_count`, each call increments the counter and reports
`(copied_files_count, total_files)`. -/
def copyWithProgressTrace (total_files : Nat) : Nat → List String → List (Nat × Nat)
  | _, [] => []
  | copied_files_count, _ :: rest =>
    (copied_files_count + 1, total_files) ::
      copyWithProgressTrace total_files (copied_files_count + 1) rest

/-- Outcome of the transfer-choice prompt loop (init.py lines 204-306):
`proceed` leaves the loop by `break` with the chosen
`effective_source_path`, `fatal` is a `return ERROR_FILE_OPERATION`,
`stuck` means the choice inputs ran out at the prompt. -/
inductive ChoiceOutcome where
  | proceed (st : RState) (effective_source_path : String)
  | fatal (st : RState)
  | stuck (st : RState)
deriving Repr

/-- Transfer-choice prompt loop (init.py lines 204-306).  Choice "1":
count files by `os.walk` (an `OSError` re-prompts); zero files creates
the local directory and proceeds without any per-file copy; otherwise
`shutil.copytree` runs with `copy_with_progress`, appending its progress
trace, and a copy error is fatal (the partially-emitted progress of a
failed copy is not modelled; no claim depends on it).  Choice "2": an
existing destination is rejected and the operator re-prompted before any
filesystem operation; otherwise `shutil.move` runs and a move error is
fatal.  Choice "3" proceeds with the original path.  Anything else
re-prompts. -/
def choiceLoop (w : World) (st : RState) (local_data_path path_from_config : String) :
    List String → ChoiceOutcome
  | [] => ChoiceOutcome.stuck st
  | c :: rest =>
    let choice := pyStrip c
    if choice = "1" then
      if w.walkFails path_from_config then
        choiceLoop w st local_data_path path_from_config rest
      else
        let total_files := countFiles st.fs path_from_config
        if total_files = 0 then
          ChoiceOutcome.proceed { st with fs := makedirs st.fs local_data_path } local_data_path
        else if w.copyOk then
          ChoiceOutcome.proceed
            { st with
              fs := copyTreeFS st.fs path_from_config local_data_path
              progress := st.progress ++
                copyWithProgressTrace total_files 0 (st.fs.filesUnder path_from_config) }
            local_data_path
        else ChoiceOutcome.fatal st
    else if choice = "2" then
      if st.fs.pathExists local_data_path then
        choiceLoop w st local_data_path path_from_config rest
      else if w.moveOk then
        ChoiceOutcome.proceed
          { st with fs := moveTreeFS st.fs path_from_config local_data_path } local_data_path
      else ChoiceOutcome.fatal st
    else if choice = "3" then
      ChoiceOutcome.proceed st path_from_config
    else choiceLoop w st local_data_path path_from_config rest

/-- Revalidation tail of the run (init.py lines 308-383): persist the
effective path immediately (failure only warned about), resolve the
validation root through the `USRDIR` marker, validate against either set,
and on success persist the resolved root — as a `pathlib.Path` value when
the marker redirected validation (line 327 builds a `Path`, line 363
stores it) and as a `str` otherwise — returning `EXISTS_VALID` with the
resolved root; on failure return `EXISTS_INVALID_SUBDIRS` with the root
that was checked. -/
def revalidatePhase (w : World) (st : RState) (effective_source_path : String) : RunResult :=
  let st1 := (attemptSave w st "TSGPS2SourcePath" (JsonV.str effective_source_path)).1
  let has_marker := st1.fs.isDir (joinPath effective_source_path "USRDIR")
  let path_to_validate := resolveValidationRoot st1.fs effective_source_path
  if (validateAgainstEitherSet st1.fs path_to_validate).1 then
    let stored_value :=
      if has_marker then JsonV.pathv path_to_validate else JsonV.str path_to_validate
    let st2 := (attemptSave w st1 "TSGPS2SourcePath" stored_value).1
    RunResult.done EXISTS_VALID (some path_to_validate) st2
  else
    RunResult.done EXISTS_INVALID_SUBDIRS (some path_to_validate) st1

/-- Continuation after the transfer-choice loop: `break` falls through to
the revalidation tail, `return ERROR_FILE_OPERATION` ends the run. -/
def dispatchChoice (w : World) : ChoiceOutcome → RunResult
  | ChoiceOutcome.proceed st effective_source_path => revalidatePhase w st effective_source_path
  | ChoiceOutcome.fatal st => RunResult.done ERROR_FILE_OPERATION none st
  | ChoiceOutcome.stuck st => RunResult.blocked st

/-- Source-path handling step (init.py lines 192-306 plus the fall
through): the effective path starts as the local data path; only when the
local data path does not yet exist is the operator asked how to use the
source files. -/
def resolverMain (w : World) (st : RState) (local_data_path path_from_config : String) :
    RunResult :=
  if st.fs.pathExists local_data_path then
    revalidatePhase w st local_data_path
  else
    dispatchChoice w (choiceLoop w st local_data_path path_from_config w.choiceInputs)

/-- Outcome of the interactive path-recovery loop. -/
inductive InputOutcome where
  | gotPath (st : RState) (path_from_config : String)
  | stuckInput (st : RState)

/-- Interactive path-recovery loop (init.py lines 163-185): repeat until
a non-empty line naming an existing directory arrives, then provisionally
save it under `MainTSGPS2SourcePath`; a failed provisional save is only
warned about and the loop still exits with the path. -/
def inputRecoveryLoop (w : World) (st : RState) : List String → InputOutcome
  | [] => InputOutcome.stuckInput st
  | i :: rest =>
    let user_input_path := pyStrip i
    if user_input_path = "" then inputRecoveryLoop w st rest
    else if st.fs.isDir user_input_path then
      InputOutcome.gotPath
        (attemptSave w st "MainTSGPS2SourcePath" (JsonV.str user_input_path)).1 user_input_path
    else inputRecoveryLoop w st rest

/-- Validity check of the configured source path (init.py lines 122-158):
the stored value must be a string that is non-empty, non-whitespace and
an existing directory, and the marker-resolved root must validate against
either required set.  `some s` returns the configured path when all of
that holds; `none` sends the run into the recovery prompt. -/
def firstPhaseCheck (fs : FS) (config_data : JsonV) : Option String :=
  match getSourcePathValue config_data with
  | none => none
  | some vOpt =>
    match vOpt with
    | some (JsonV.str s) =>
      if s = "" then none
      else if pyStrip s = "" then none
      else if fs.isDir s then
        if (validateAgainstEitherSet fs (resolveValidationRoot fs s)).1 then some s else none
      else none
    | _ => none

/-- Whole run of `check_or_create_config(filename)` (init.py lines
69-383).  `os.path.abspath` is modelled as the identity (file names are
supplied absolute).  A missing config file is created with the default
document and the run ends with `CREATED`; a read or parse failure ends
with `ERROR_READ`; otherwise the configured path is checked, the
recovery prompt runs if needed, the transfer choice runs if the local
data path does not yet exist, and the revalidation tail produces the
terminal status. -/
def check_or_create_config (w : World) (filename : String) : RunResult :=
  let config_file_path := filename
  let project_base_dir := dirName config_file_path
  let local_data_path := joinPath project_base_dir localDataSubpath
  let st0 : RState :=
    { doc := JsonV.null, file := w.initialFile, fs := w.fs, saveIdx := 0, progress := [] }
  match w.initialFile with
  | FileState.absent =>
    if w.createOk then
      RunResult.done CREATED none
        { st0 with
          doc := default_data project_base_dir
          file := FileState.holds (default_data project_base_dir) }
    else
      RunResult.done ERROR_CREATE none { st0 with file := FileState.corrupted }
  | FileState.corrupted => RunResult.done ERROR_READ none st0
  | FileState.holds config_data =>
    if !w.readOk then RunResult.done ERROR_READ none st0
    else
      let st1 := { st0 with doc := config_data }
      match firstPhaseCheck w.fs config_data with
      | some path_from_config => resolverMain w st1 local_data_path path_from_config
      | none =>
        match inputRecoveryLoop w st1 w.pathInputs with
        | InputOutcome.stuckInput st2 => RunResult.blocked st2
        | InputOutcome.gotPath st2 path_from_config =>
          if path_from_config = "" then RunResult.done USER_PROVIDED_PATH_INVALID none st2
          else resolverMain w st2 local_data_path path_from_config

/-- Schema of the configuration document as the spec states it (spec §6
and §8): top-level `RemakeEngine` with `Config.project_path` set to the
project base directory, `Directories.TSGPS2SourcePath` set to the empty
string, and an empty `Tools` mapping. -/
def specSchemaDoc (project_base_dir : String) : JsonV :=
  JsonV.obj (JsonObj.cons "RemakeEngine"
    (JsonV.obj
      (JsonObj.cons "Config"
        (JsonV.obj (JsonObj.cons "project_path" (JsonV.str project_base_dir) JsonObj.nil))
        (JsonObj.cons "Directories"
          (JsonV.obj (JsonObj.cons "TSGPS2SourcePath" (JsonV.str "") JsonObj.nil))
          (JsonObj.cons "Tools" (JsonV.obj JsonObj.nil) JsonObj.nil))))
    JsonObj.nil)

/-- C4 counterexample filesystem: the marker subdirectory itself contains
a marker subdirectory. -/
def fsC4 : FS := { dirs := ["r/USRDIR", "r/USRDIR/USRDIR"], files := [] }

/-- C4 witness filesystem: a marker whose contents hold no further
marker. -/
def fsC4w : FS := { dirs := ["r/USRDIR"], files := [] }

/-- C5 witness filesystem: a directory holding all eight required
names. -/
def fsC5 : FS := { dirs := "/g" :: USRDIR_DIRS_ORIGINAL.map (joinPath "/g"), files := [] }

/-- C7 witness: a two-file source tree. -/
def fsC7 : FS := { dirs := ["/s"], files := ["/s/a.bin", "/s/sub/b.bin"] }

/-- Concrete fixture: a valid external source directory with all eight
required subdirectories directly inside it. -/
def gameDirs : List String :=
  ["/game", "/game/ENVS", "/game/FMV", "/game/GRAPHICS", "/game/GUIMENU",
   "/game/IRX", "/game/MISC", "/game/SOUNDS", "/game/SUBTITLE"]

/-- Concrete fixture: the local data path for config file
`/proj/project.json` (base directory `/proj` joined with the fixed
subpath; the backslashes are literal). -/
def localPathC : String := "/proj/Source\\GameFiles\\SimpGamePS2"

/-- Concrete fixture: the `USRDIR` marker subdirectory of the local data
path. -/
def usrdirC : String := "/proj/Source\\GameFiles\\SimpGamePS2/USRDIR"

/-- Concrete fixture: a well-formed config document whose
`TSGPS2SourcePath` is the valid external directory `/game`. -/
def docC : JsonV :=
  JsonV.obj (JsonObj.cons "RemakeEngine"
    (JsonV.obj
      (JsonObj.cons "Config"
        (JsonV.obj (JsonObj.cons "project_path" (JsonV.str "/proj") JsonObj.nil))
        (JsonObj.cons "Directories"
          (JsonV.obj (JsonObj.cons "TSGPS2SourcePath" (JsonV.str "/game") JsonObj.nil))
          (JsonObj.cons "Tools" (JsonV.obj JsonObj.nil) JsonObj.nil))))
    JsonObj.nil)

/-- Concrete fixture: `docC` after the post-decision persist stored the
effective local data path. -/
def docC2out : JsonV :=
  JsonV.obj (JsonObj.cons "RemakeEngine"
    (JsonV.obj
      (JsonObj.cons "Config"
        (JsonV.obj (JsonObj.cons "project_path" (JsonV.str "/proj") JsonObj.nil))
        (JsonObj.cons "Directories"
          (JsonV.obj (JsonObj.cons "TSGPS2SourcePath" (JsonV.str localPathC) JsonObj.nil))
          (JsonObj.cons "Tools" (JsonV.obj JsonObj.nil) JsonObj.nil))))
    JsonObj.nil)

/-- World for the C1 failing input: config holds `/game` (valid), the
local data path already exists, its `USRDIR` marker exists and holds all
eight required subdirectories, and every IO oracle reports success. -/
def wC1 : World :=
  { fs := ⟨gameDirs ++ localPathC :: usrdirC :: USRDIR_DIRS_ORIGINAL.map (joinPath usrdirC), []⟩
    initialFile := FileState.holds docC
    createOk := true
    readOk := true
    saveOk := fun _ => true
    copyOk := true
    moveOk := true
    walkFails := fun _ => false
    pathInputs := []
    choiceInputs := [] }

/-- World for the C2 counterexample: like `wC1` but the `USRDIR` marker
under the local data path is empty, so validation fails against both
sets. -/
def wC2 : World :=
  { wC1 with fs := ⟨gameDirs ++ [localPathC, usrdirC], []⟩ }

/-- World for the C3 counterexample: the local data path exists, carries
no marker, and holds all eight required subdirectories, while every
config write fails. -/
def wC3 : World :=
  { wC1 with
    fs := ⟨gameDirs ++ localPathC :: USRDIR_DIRS_ORIGINAL.map (joinPath localPathC), []⟩
    saveOk := fun _ => false }

/-- Resolver state entering the revalidation tail in the `wC2` scenario,
used by the C2 amended witness. -/
def stC2w : RState :=
  { doc := docC
    file := FileState.holds docC
    fs := wC2.fs
    saveIdx := 0
    progress := [] }

/-- State fixture for the C6 witness: the local data path `/L` already
exists. -/
def stC6 : RState :=
  { doc := JsonV.null
    file := FileState.corrupted
    fs := ⟨["/L"], []⟩
    saveIdx := 0
    progress := [] }

/-- World fixture for the C6 witness. -/
def wC6 : World :=
  { wC1 with fs := ⟨["/L"], []⟩, initialFile := FileState.corrupted }

/-- State fixture for the C10 witness: the source directory exists and
holds no files. -/
def stC10 : RState :=
  { doc := JsonV.null
    file := FileState.corrupted
    fs := ⟨["/src"], []⟩
    saveIdx := 0
    progress := [] }

/-- World fixture for the C10 witness. -/
def wC10 : World :=
  { wC1 with fs := ⟨["/src"], []⟩, initialFile := FileState.corrupted }

/-- World fixture for the C8 witness: no config file yet. -/
def wC8 : World :=
  { wC1 with fs := ⟨[], []⟩, initialFile := FileState.absent }

/-- Setting a key then looking it up yields the set value (Python dict
semantics of `objSet`/`objLookup`). -/
theorem objLookup_objSet_self : (l : JsonObj) → (k : String) → (v : JsonV) →
    objLookup (objSet l k v) k = some v
  | JsonObj.nil, k, v => by simp [objSet, objLookup]
  | JsonObj.cons k1 v1 rest, k, v => by
    by_cases h : k1 = k
    · simp [objSet, h, objLookup]
    · simp [objSet, h, objLookup, objLookup_objSet_self rest k v]

/-- Reading the source path back out of a document produced by
`updateDirs` with key `"TSGPS2SourcePath"` yields the written value. -/
theorem updateDirs_sourcePath (config_data : JsonV) (v : JsonV) (doc2 : JsonV)
    (h : updateDirs config_data "TSGPS2SourcePath" v = some doc2) :
    getSourcePathValue doc2 = some (some v) := by
  unfold updateDirs at h
  split at h
  case h_2 => exact absurd h (by simp)
  case h_1 f1 =>
    split at h
    case h_2 hne => exact absurd h (by simp)
    case h_1 f2 heq2 =>
      split at h
      case h_2 hne => exact absurd h (by simp)
      case h_1 f3 heq3 =>
        rw [Option.some_inj] at h
        subst h
        simp [getSourcePathValue, objLookup_objSet_self]

/-- Characterisation of `check_dirs_exist`: true exactly when the base
path is a directory and every required name is a subdirectory of it. -/
theorem check_dirs_exist_iff (fs : FS) (base_path : String) (required_dirs : List String) :
    check_dirs_exist fs base_path required_dirs = true ↔
      (fs.isDir base_path = true ∧
        ∀ d ∈ required_dirs, fs.isDir (joinPath base_path d) = true) := by
  unfold check_dirs_exist
  by_cases h : fs.isDir base_path
  · simp [h, List.isEmpty_iff, List.filter_eq_nil_iff]
  · simp [h]

/-- Trace of a full copy starting at counter `c`: the reported pairs are
`(c+1, total), (c+2, total), ...`, one per file. -/
theorem copyWithProgressTrace_eq (total : Nat) (l : List String) :
    ∀ c, copyWithProgressTrace total c l =
      (List.range' (c + 1) l.length).map (fun k => (k, total)) := by
  induction l with
  | nil => intro c; simp [copyWithProgressTrace]
  | cons x xs ih =>
    intro c
    simp only [copyWithProgressTrace, List.length_cons, List.range'_succ, List.map_cons,
      List.cons.injEq, true_and]
    exact ih (c + 1)

/-- C4: the claim that marker resolution is idempotent for every root
fails on the code: when the marker subdirectory itself contains a marker,
a second application descends one level further.  Concretely, with
directories `r/USRDIR` and `r/USRDIR/USRDIR`, one application of the
resolution of init.py lines 327-341 maps `r` to `r/USRDIR` while a second
application maps it on to `r/USRDIR/USRDIR`. -/
theorem C4_counterexample_nested_marker :
    resolveValidationRoot fsC4 (resolveValidationRoot fsC4 "r") ≠
      resolveValidationRoot fsC4 "r" := by
  decide

/-- C4 (amended): the resolution operation is a pure function of the
filesystem and the root (side-effect-free by construction in this
embedding), and it is idempotent at every root whose resolved root does
not itself contain a marker subdirectory — in particular at every root on
a filesystem without nested `USRDIR/USRDIR` chains. -/
theorem C4_amended_resolution_idempotent (fs : FS) (root : String)
    (h : fs.isDir (joinPath (resolveValidationRoot fs root) "USRDIR") = false) :
    resolveValidationRoot fs (resolveValidationRoot fs root) = resolveValidationRoot fs root := by
  unfold resolveValidationRoot at h ⊢
  by_cases hm : fs.isDir (joinPath root "USRDIR")
  · simp only [hm, if_true] at h ⊢
    simp [h]
  · simp only [hm, if_false] at h ⊢
    simp [hm]

/-- C4 amended witness: concrete instance of the amended idempotence. -/
theorem C4_amended_witness :
    fsC4w.isDir (joinPath (resolveValidationRoot fsC4w "r") "USRDIR") = false ∧
    resolveValidationRoot fsC4w (resolveValidationRoot fsC4w "r") =
      resolveValidationRoot fsC4w "r" :=
  ⟨by decide, C4_amended_resolution_idempotent fsC4w "r" (by decide)⟩

/-- C5: a directory holding all eight names of the first-tested
(`USRDIR_DIRS_ORIGINAL`, the Primary set of the spec) list validates as
`(true, primary)` whatever else the directory holds: the second list is
only consulted when the first did not fully match, and partial matches
are never combined (init.py lines 344-355). -/
theorem C5_primary_first_full_match_wins (fs : FS) (p : String)
    (hdir : fs.isDir p = true)
    (hall : ∀ d ∈ USRDIR_DIRS_ORIGINAL, fs.isDir (joinPath p d) = true) :
    validateAgainstEitherSet fs p = (true, some MatchedSet.primary) := by
  have h1 : check_dirs_exist fs p USRDIR_DIRS_ORIGINAL = true :=
    (check_dirs_exist_iff fs p USRDIR_DIRS_ORIGINAL).mpr ⟨hdir, hall⟩
  simp [validateAgainstEitherSet, h1]

/-- C5 witness: concrete directory with the eight required names. -/
theorem C5_witness :
    (fsC5.isDir "/g" = true ∧
      ∀ d ∈ USRDIR_DIRS_ORIGINAL, fsC5.isDir (joinPath "/g" d) = true) ∧
    validateAgainstEitherSet fsC5 "/g" = (true, some MatchedSet.primary) :=
  ⟨⟨by decide, by decide⟩,
    C5_primary_first_full_match_wins fsC5 "/g" (by decide) (by decide)⟩

/-- C9: the two required-set constants are the same eight names, checking
a root against one set gives the same answer as against the other, and
the second-tested (Alternate) branch can never be the one that matches:
`validateAgainstEitherSet` reports either no match or a `primary` match,
never `alternate`. -/
theorem C9_sets_coincide_alternate_unreachable :
    USRDIR_DIRS = USRDIR_DIRS_ORIGINAL ∧
    (∀ fs p, check_dirs_exist fs p USRDIR_DIRS = check_dirs_exist fs p USRDIR_DIRS_ORIGINAL) ∧
    ∀ fs p, (validateAgainstEitherSet fs p).2 = none ∨
      (validateAgainstEitherSet fs p).2 = some MatchedSet.primary := by
  refine ⟨rfl, fun fs p => rfl, fun fs p => ?_⟩
  have hsets : USRDIR_DIRS = USRDIR_DIRS_ORIGINAL := rfl
  by_cases h : check_dirs_exist fs p USRDIR_DIRS_ORIGINAL
  · right; simp [validateAgainstEitherSet, h]
  · left; simp [validateAgainstEitherSet, hsets, h]

/-- C7: a successful copy of a source tree holding `N ≥ 1` files invokes
the progress callback exactly `N` times; the completed counters it
reports are exactly `1, 2, ..., N` (strictly increasing by one and
reaching `N`), and every invocation reports the total `N` that the
pre-copy enumeration computed. -/
theorem C7_progress_exactly_once_per_file (fs : FS) (src : String)
    (h : 1 ≤ countFiles fs src) :
    (copyWithProgressTrace (countFiles fs src) 0 (fs.filesUnder src)).length =
      countFiles fs src ∧
    (copyWithProgressTrace (countFiles fs src) 0 (fs.filesUnder src)).map Prod.fst =
      List.range' 1 (countFiles fs src) ∧
    (∀ e ∈ copyWithProgressTrace (countFiles fs src) 0 (fs.filesUnder src),
      e.2 = countFiles fs src) ∧
    (countFiles fs src, countFiles fs src) ∈
      copyWithProgressTrace (countFiles fs src) 0 (fs.filesUnder src) := by
  have htr := copyWithProgressTrace_eq (countFiles fs src) (fs.filesUnder src) 0
  have hlen : (fs.filesUnder src).length = countFiles fs src := rfl
  rw [hlen] at htr
  refine ⟨?_, ?_, ?_, ?_⟩
  · rw [htr]; simp
  · rw [htr]; simp [List.map_map, Function.comp_def]
  · rw [htr]
    intro e he
    simp only [List.mem_map] at he
    obtain ⟨k, _, hk⟩ := he
    rw [← hk]
  · rw [htr]
    refine List.mem_map.mpr ⟨countFiles fs src, ?_, rfl⟩
    rw [List.mem_range'_1]
    omega

/-- C7 witness: concrete instance with two files. -/
theorem C7_witness :
    1 ≤ countFiles fsC7 "/s" ∧
    ((copyWithProgressTrace (countFiles fsC7 "/s") 0 (fsC7.filesUnder "/s")).length =
        countFiles fsC7 "/s" ∧
      (copyWithProgressTrace (countFiles fsC7 "/s") 0 (fsC7.filesUnder "/s")).map Prod.fst =
        List.range' 1 (countFiles fsC7 "/s") ∧
      (∀ e ∈ copyWithProgressTrace (countFiles fsC7 "/s") 0 (fsC7.filesUnder "/s"),
        e.2 = countFiles fsC7 "/s") ∧
      (countFiles fsC7 "/s", countFiles fsC7 "/s") ∈
        copyWithProgressTrace (countFiles fsC7 "/s") 0 (fsC7.filesUnder "/s")) :=
  ⟨by decide, C7_progress_exactly_once_per_file fsC7 "/s" (by decide)⟩

/-- C6: choosing Move while the local destination already exists is
rejected before any data is touched: the state (filesystem, document,
file, write counter, progress trace) is exactly the state before the
choice, nothing is created, moved or deleted, and the loop re-prompts on
the remaining inputs (init.py lines 278-282; the accompanying error
message is console output, outside the model). -/
theorem C6_move_rejected_when_destination_exists (w : World) (st : RState)
    (local_data_path path_from_config c : String) (rest : List String)
    (h1 : pyStrip c = "2") (h2 : st.fs.pathExists local_data_path = true) :
    choiceLoop w st local_data_path path_from_config (c :: rest) =
      choiceLoop w st local_data_path path_from_config rest := by
  simp [choiceLoop, h1, h2]

/-- C6 witness: concrete rejected Move. -/
theorem C6_witness :
    (pyStrip "2" = "2" ∧ stC6.fs.pathExists "/L" = true) ∧
    choiceLoop wC6 stC6 "/L" "/src" ["2"] = choiceLoop wC6 stC6 "/L" "/src" [] :=
  ⟨⟨by decide, by decide⟩,
    C6_move_rejected_when_destination_exists wC6 stC6 "/L" "/src" "2" [] (by decide) (by decide)⟩

/-- C10: choosing Copy when the pre-copy enumeration finds zero files
succeeds without any per-file copy: the local destination directory is
created, the progress trace is untouched (the callback is never invoked),
the loop proceeds with the local data path as effective path, and the
continuation is exactly the revalidation tail on that path (init.py
lines 212-224). -/
theorem C10_copy_with_empty_source_skips_callback (w : World) (st : RState)
    (local_data_path path_from_config c : String) (rest : List String)
    (h1 : pyStrip c = "1") (h2 : w.walkFails path_from_config = false)
    (h3 : countFiles st.fs path_from_config = 0) :
    choiceLoop w st local_data_path path_from_config (c :: rest) =
      ChoiceOutcome.proceed { st with fs := makedirs st.fs local_data_path } local_data_path ∧
    dispatchChoice w (choiceLoop w st local_data_path path_from_config (c :: rest)) =
      revalidatePhase w { st with fs := makedirs st.fs local_data_path } local_data_path ∧
    ({ st with fs := makedirs st.fs local_data_path } : RState).progress = st.progress := by
  have hcl : choiceLoop w st local_data_path path_from_config (c :: rest) =
      ChoiceOutcome.proceed { st with fs := makedirs st.fs local_data_path } local_data_path := by
    simp [choiceLoop, h1, h2, h3]
  exact ⟨hcl, by rw [hcl]; rfl, rfl⟩

/-- C10 witness: concrete empty-source Copy. -/
theorem C10_witness :
    (pyStrip "1" = "1" ∧ wC10.walkFails "/src" = false ∧ countFiles stC10.fs "/src" = 0) ∧
    (choiceLoop wC10 stC10 "/L" "/src" ["1"] =
      ChoiceOutcome.proceed { stC10 with fs := makedirs stC10.fs "/L" } "/L" ∧
    dispatchChoice wC10 (choiceLoop wC10 stC10 "/L" "/src" ["1"]) =
      revalidatePhase wC10 { stC10 with fs := makedirs stC10.fs "/L" } "/L" ∧
    ({ stC10 with fs := makedirs stC10.fs "/L" } : RState).progress = stC10.progress) :=
  ⟨⟨by decide, by decide, by decide⟩,
    C10_copy_with_empty_source_skips_callback wC10 stC10 "/L" "/src" "1" []
      (by decide) (by decide) (by decide)⟩

/-- C3 (amended): a failed config write never ends the run in an error
terminal state.  The revalidation tail — which contains both the
immediate post-decision persist and the final persist of the validated
root — returns `EXISTS_VALID` or `EXISTS_INVALID_SUBDIRS` for every
world, every state and every effective path, regardless of whether any
write succeeds: all save failures there are downgraded to warnings, just
like the provisional save of the input-recovery loop (init.py lines
180-182, 318-320, 367-369). -/
theorem C3_amended_save_failure_never_aborts (w : World) (st : RState)
    (effective_source_path : String) :
    (revalidatePhase w st effective_source_path).status = EXISTS_VALID ∨
      (revalidatePhase w st effective_source_path).status = EXISTS_INVALID_SUBDIRS := by
  unfold revalidatePhase
  dsimp only
  split
  · left; rfl
  · right; rfl

/-- C2 (amended): when the run reaches the revalidation tail and
validation fails against both required sets, the result is
`EXISTS_INVALID_SUBDIRS` together with the root that was actually checked
(the marker-resolved root), while the config file — persisted by the
post-decision save, the only save on this branch — holds the *effective*
path as its source-path value, not necessarily the checked root. -/
theorem C2_amended_invalid_branch_persists_effective_path (w : World) (st : RState)
    (effective_source_path : String) (doc2 : JsonV)
    (hup : updateDirs st.doc "TSGPS2SourcePath" (JsonV.str effective_source_path) = some doc2)
    (hser : serializable doc2 = true)
    (hok : w.saveOk st.saveIdx = true)
    (hval : check_dirs_exist st.fs (resolveValidationRoot st.fs effective_source_path)
        USRDIR_DIRS_ORIGINAL = false) :
    revalidatePhase w st effective_source_path =
      RunResult.done EXISTS_INVALID_SUBDIRS
        (some (resolveValidationRoot st.fs effective_source_path))
        { st with
          doc := doc2
          file := FileState.holds doc2
          saveIdx := st.saveIdx + 1 } ∧
    storedSourcePath (FileState.holds doc2) = some (JsonV.str effective_source_path) := by
  constructor
  · have hst1 : (attemptSave w st "TSGPS2SourcePath" (JsonV.str effective_source_path)).1 =
        { st with
          doc := doc2
          file := FileState.holds doc2
          saveIdx := st.saveIdx + 1 } := by
      simp [attemptSave, hup, hser, hok]
    have hsets : USRDIR_DIRS = USRDIR_DIRS_ORIGINAL := rfl
    have hv : (validateAgainstEitherSet st.fs
        (resolveValidationRoot st.fs effective_source_path)).1 = false := by
      simp [validateAgainstEitherSet, hsets, hval]
    unfold revalidatePhase
    rw [hst1]
    simp [hv]
  · have hs := updateDirs_sourcePath st.doc (JsonV.str effective_source_path) doc2 hup
    simp [storedSourcePath, hs]

/-- C2 amended witness: concrete invalid revalidation (marker present,
marker contents empty), with the effective local data path persisted. -/
theorem C2_amended_witness :
    (updateDirs stC2w.doc "TSGPS2SourcePath" (JsonV.str localPathC) = some docC2out ∧
      serializable docC2out = true ∧
      wC2.saveOk stC2w.saveIdx = true ∧
      check_dirs_exist stC2w.fs (resolveValidationRoot stC2w.fs localPathC)
        USRDIR_DIRS_ORIGINAL = false) ∧
    (revalidatePhase wC2 stC2w localPathC =
      RunResult.done EXISTS_INVALID_SUBDIRS
        (some (resolveValidationRoot stC2w.fs localPathC))
        { stC2w with
          doc := docC2out
          file := FileState.holds docC2out
          saveIdx := stC2w.saveIdx + 1 } ∧
    storedSourcePath (FileState.holds docC2out) = some (JsonV.str localPathC)) :=
  ⟨⟨rfl, rfl, rfl, by decide⟩,
    C2_amended_invalid_branch_persists_effective_path wC2 stC2w localPathC docC2out
      rfl rfl rfl (by decide)⟩

/-- C1 at the failing input: the run reaches the revalidation tail with
an effective path whose `USRDIR` marker holds all eight required
subdirectories, every IO oracle succeeds, and the run returns
`EXISTS_VALID` with the marker-resolved root — but the final persist
stores a `pathlib.Path` value and `json.dump` rejects it (init.py lines
327 and 363), so the config file ends corrupted rather than holding the
resolved validation root. -/
theorem C1_resolved_marker_root_never_persisted :
    (check_or_create_config wC1 "/proj/project.json").status = EXISTS_VALID ∧
    (check_or_create_config wC1 "/proj/project.json").retPath = some usrdirC ∧
    (check_or_create_config wC1 "/proj/project.json").finalFile = FileState.corrupted ∧
    storedSourcePath (check_or_create_config wC1 "/proj/project.json").finalFile = none :=
  ⟨rfl, rfl, rfl, rfl⟩

/-- C2 counterexample: a run whose effective path carries a `USRDIR`
marker with the required subdirectories missing returns
`EXISTS_INVALID_SUBDIRS` with the checked root (the marker subdirectory),
but the config file has been persisted with the *effective* path — a
different path — as its source-path value, refuting the claim that the
checked path is what gets persisted. -/
theorem C2_counterexample_checked_root_not_persisted :
    (check_or_create_config wC2 "/proj/project.json").status = EXISTS_INVALID_SUBDIRS ∧
    (check_or_create_config wC2 "/proj/project.json").retPath = some usrdirC ∧
    storedSourcePath (check_or_create_config wC2 "/proj/project.json").finalFile =
      some (JsonV.str localPathC) ∧
    localPathC ≠ usrdirC :=
  ⟨rfl, rfl, rfl, by decide⟩

/-- C3 counterexample: a run in which every config write fails — in
particular the immediate post-decision persist and the final persist of
the validated root — still terminates with status `EXISTS_VALID`, not an
error terminal state, leaving the on-disk config without the decision
that was made in memory. -/
theorem C3_counterexample_failed_saves_still_valid :
    (check_or_create_config wC3 "/proj/project.json").status = EXISTS_VALID ∧
    (check_or_create_config wC3 "/proj/project.json").finalFile = FileState.corrupted ∧
    (∀ n, wC3.saveOk n = false) :=
  ⟨rfl, rfl, fun _ => rfl⟩

/-- C8: every fresh invocation with no config file present and a
successful create writes exactly the schema document — `RemakeEngine`
with `Config.project_path` set to the project base directory,
`Directories.TSGPS2SourcePath` set to `""`, and an empty `Tools` mapping
— and returns `(CREATED, none)` with nothing else of the workflow run:
no write attempts beyond the creation, no progress events, the
filesystem untouched. -/
theorem C8_fresh_run_creates_schema_default (w : World) (filename : String)
    (h1 : w.initialFile = FileState.absent) (h2 : w.createOk = true) :
    check_or_create_config w filename =
      RunResult.done CREATED none
        { doc := specSchemaDoc (dirName filename)
          file := FileState.holds (specSchemaDoc (dirName filename))
          fs := w.fs
          saveIdx := 0
          progress := [] } := by
  simp only [check_or_create_config, h1, h2]
  rfl

/-- C8 witness: concrete fresh run. -/
theorem C8_witness :
    (wC8.initialFile = FileState.absent ∧ wC8.createOk = true) ∧
    check_or_create_config wC8 "/proj/project.json" =
      RunResult.done CREATED none
        { doc := specSchemaDoc (dirName "/proj/project.json")
          file := FileState.holds (specSchemaDoc (dirName "/proj/project.json"))
          fs := wC8.fs
          saveIdx := 0
          progress := [] } :=
  ⟨⟨rfl, rfl⟩, C8_fresh_run_creates_schema_default wC8 "/proj/project.json" rfl rfl⟩

end TSGPS2
